import Mathlib

/-!
# StudySync — formal model of the client core

A shallow embedding of the StudySync web client (doubts feed, answers list,
dashboard, form-gated mutations, sign-up flow) translated from the
TypeScript/React source. Pages become pure functions from their inputs
(form values, settled query outcomes, subscription event traces) to the
state and effect traces they produce; calls into the Firestore/Auth SDK
become explicit entries in a call list.
-/

namespace StudySync

/-- An error delivered by the document store: a machine classification
(`code`, e.g. `failed-precondition`) plus a human-readable `message`. -/
structure FsError where
  code : String
  message : String
deriving DecidableEq, Repr

/-- A toast notification as issued through `useToast`:
whether the `destructive` variant was used, the title, and the
optional description. -/
structure Toast where
  destructive : Bool
  title : String
  description : Option String
deriving DecidableEq, Repr

/-- The signed-in identity as exposed by the auth context
(`user.uid`, `user.displayName`). -/
structure AuthUser where
  uid : String
  displayName : String
deriving DecidableEq, Repr

/-! ## Dashboard: parallel multi-source fetch (`DashboardPage.fetchData`)

The dashboard issues three one-shot queries with `Promise.allSettled` and
handles each settled outcome independently. A settled outcome is either
fulfilled with the mapped document list or rejected with the reason's
message; we embed it as `Except String (List _)`. -/

/-- Dashboard record shape for a doubt (`interface Doubt` in the dashboard page). -/
structure DashDoubt where
  id : String
  description : String
  subject : String
  isResolved : Bool
deriving DecidableEq, Repr

/-- Dashboard record shape for a shared resource (`interface Note`). -/
structure DashNote where
  id : String
  topic : String
  subject : String
  resourceUrl : String
deriving DecidableEq, Repr

/-- Dashboard record shape for an answer (`interface Answer`). -/
structure DashAnswer where
  id : String
  text : String
  doubtId : String
deriving DecidableEq, Repr

/-- The dashboard component state touched by `fetchData`: one data list and
one error slot per source. -/
structure DashboardState where
  myDoubts : List DashDoubt
  myNotes : List DashNote
  myAnswers : List DashAnswer
  doubtsError : Option String
  notesError : Option String
  answersError : Option String
deriving DecidableEq, Repr

/-- `DashboardPage.fetchData`, after `Promise.allSettled` has delivered the
three settled outcomes: previous errors are cleared, then each outcome is
handled independently — a fulfilled outcome stores its records, a rejected
outcome stores the reason's message in that source's error slot. -/
def fetchDataApply (s : DashboardState)
    (doubtsResult : Except String (List DashDoubt))
    (notesResult : Except String (List DashNote))
    (answersResult : Except String (List DashAnswer)) : DashboardState :=
  let s0 := { s with doubtsError := none, notesError := none, answersError := none }
  let s1 := match doubtsResult with
    | .ok docs => { s0 with myDoubts := docs }
    | .error msg => { s0 with doubtsError := some msg }
  let s2 := match notesResult with
    | .ok docs => { s1 with myNotes := docs }
    | .error msg => { s1 with notesError := some msg }
  match answersResult with
  | .ok docs => { s2 with myAnswers := docs }
  | .error msg => { s2 with answersError := some msg }

/-- `1` when a settled outcome is a rejection, else `0`. -/
def errCount {α : Type} : Except String (List α) → Nat
  | .ok _ => 0
  | .error _ => 1

/-- C1: when exactly one of the dashboard's three settled queries fails,
each succeeding source gets a success outcome (its records stored, its
error slot `none`) and only the failing source gets a failure outcome (its
reason's message stored); no failure suppresses another source's data. -/
theorem c1_parallel_fetch_independent_outcomes (s : DashboardState)
    (dr : Except String (List DashDoubt))
    (nr : Except String (List DashNote))
    (ar : Except String (List DashAnswer))
    (hone : errCount dr + errCount nr + errCount ar = 1) :
    (match dr with
      | .ok docs => (fetchDataApply s dr nr ar).myDoubts = docs ∧
          (fetchDataApply s dr nr ar).doubtsError = none
      | .error msg => (fetchDataApply s dr nr ar).doubtsError = some msg) ∧
    (match nr with
      | .ok docs => (fetchDataApply s dr nr ar).myNotes = docs ∧
          (fetchDataApply s dr nr ar).notesError = none
      | .error msg => (fetchDataApply s dr nr ar).notesError = some msg) ∧
    (match ar with
      | .ok docs => (fetchDataApply s dr nr ar).myAnswers = docs ∧
          (fetchDataApply s dr nr ar).answersError = none
      | .error msg => (fetchDataApply s dr nr ar).answersError = some msg) := by
  cases dr <;> cases nr <;> cases ar <;>
    simp_all [fetchDataApply, errCount]

/-- Concrete instance of C1: notes query fails, doubts and answers succeed. -/
theorem c1_witness :
    let s0 : DashboardState := ⟨[], [], [], none, none, none⟩
    let d : DashDoubt := ⟨"d1", "What is a red-black tree?", "DSA", false⟩
    let a : DashAnswer := ⟨"a1", "A self-balancing BST.", "d1"⟩
    let out := fetchDataApply s0 (.ok [d]) (.error "index missing") (.ok [a])
    out.myDoubts = [d] ∧ out.doubtsError = none ∧
      out.notesError = some "index missing" ∧
      out.myAnswers = [a] ∧ out.answersError = none := by
  have h := c1_parallel_fetch_independent_outcomes
    ⟨[], [], [], none, none, none⟩
    (.ok [⟨"d1", "What is a red-black tree?", "DSA", false⟩])
    (.error "index missing")
    (.ok [⟨"a1", "A self-balancing BST.", "d1"⟩])
    (by decide)
  exact ⟨h.1.1, h.1.2, h.2.1, h.2.2.1, h.2.2.2⟩

/-! ## Share-resource form: URL patterns (`upload-notes` `formSchema.refine`)

The schema's refinement tests the anchored regexes

* YouTube: `^(https?:\/\/)?(www\.)?(youtube\.com|youtu\.?be|m\.youtube\.com|y2u\.be|yt\.be|music\.youtube\.com|gaming\.youtube\.com|studio\.youtube\.com|shorts\.youtube\.com|youtube-nocookie\.com)\/.+$`
* Drive:   `^(https?:\/\/)?(drive\.google\.com)\/.+$`

We embed them structurally: a match is an optional scheme literal, an
optional `www.` (YouTube only), one host alternative, then `/` followed by
one or more non-line-terminator characters (JS `.` excludes U+000A,
U+000D, U+2028, U+2029). -/

/-- JS regex `.` (without the `s` flag) excludes the four line terminators. -/
def isLineTerm (c : Char) : Bool :=
  c = '\n' || c = '\r' || c.toNat = 0x2028 || c.toNat = 0x2029

/-- Consume the literal `p` from the front of `s`, returning the remainder. -/
def litPre : List Char → List Char → Option (List Char)
  | [], s => some s
  | _ :: _, [] => none
  | c :: p, d :: s => if c = d then litPre p s else none

/-- Match literal `p`, then continue with `k` on the remainder. -/
def litThen (p : List Char) (k : List Char → Bool) (s : List Char) : Bool :=
  match litPre p s with
  | some rest => k rest
  | none => false

/-- Regex tail `\/.+$`: a slash then one or more non-line-terminator
characters reaching the end of the string. -/
def slashDotPlus : List Char → Bool
  | '/' :: rest => !rest.isEmpty && rest.all (fun c => !isLineTerm c)
  | _ => false

/-- Host alternatives of the YouTube regex (`youtu\.?be` contributes both
`youtube` and `youtu.be`). -/
def ytHosts : List (List Char) :=
  ["youtube.com", "youtube", "youtu.be", "m.youtube.com", "y2u.be", "yt.be",
   "music.youtube.com", "gaming.youtube.com", "studio.youtube.com",
   "shorts.youtube.com", "youtube-nocookie.com"].map String.toList

/-- The optional `(www\.)?` group. -/
def wwwOpts : List (List Char) := [[], "www.".toList]

/-- YouTube regex after the optional scheme. -/
def ytCore (t : List Char) : Bool :=
  wwwOpts.any fun w => ytHosts.any fun h => litThen (w ++ h) slashDotPlus t

/-- Drive regex after the optional scheme. -/
def driveCore (t : List Char) : Bool :=
  litThen "drive.google.com".toList slashDotPlus t

/-- The optional `(https?:\/\/)?` group in front of a core matcher. -/
def withScheme (core : List Char → Bool) (s : List Char) : Bool :=
  core s || litThen "http://".toList core s || litThen "https://".toList core s

/-- Full YouTube URL pattern (the regex tested when `resourceType = youtube`). -/
def ytMatch (s : String) : Bool := withScheme ytCore s.toList

/-- Full Drive URL pattern (the regex tested when `resourceType = drive`). -/
def driveMatch (s : String) : Bool := withScheme driveCore s.toList

theorem litPre_sound : ∀ (p s t : List Char), litPre p s = some t → s = p ++ t := by
  intro p
  induction p with
  | nil => intro s t h; simp [litPre] at h; simp [h]
  | cons c p ih =>
    intro s t h
    cases s with
    | nil => simp [litPre] at h
    | cons d s =>
      simp only [litPre] at h
      split at h
      · next hcd => subst hcd; simp [ih s t h]
      · exact absurd h (by simp)

theorem litThen_parts (p : List Char) (k : List Char → Bool) (s : List Char)
    (h : litThen p k s = true) : ∃ t, s = p ++ t ∧ k t = true := by
  unfold litThen at h
  split at h
  · next t ht => exact ⟨t, litPre_sound p s t ht, h⟩
  · exact absurd h (by simp)

theorem litThen_head (p : List Char) (k : List Char → Bool) (s : List Char)
    (h : litThen p k s = true) (hp : p ≠ []) : s.head? = p.head? := by
  obtain ⟨t, rfl, -⟩ := litThen_parts p k s h
  cases p with
  | nil => exact absurd rfl hp
  | cons c p => rfl

/-- Any post-scheme YouTube match begins with one of five characters. -/
theorem ytCore_head (t : List Char) (h : ytCore t = true) :
    t.head? = some 'w' ∨ t.head? = some 'y' ∨ t.head? = some 'm' ∨
      t.head? = some 'g' ∨ t.head? = some 's' := by
  simp only [ytCore, List.any_eq_true] at h
  obtain ⟨w, hw, ho, hho, hlit⟩ := h
  simp only [wwwOpts, List.mem_cons, List.mem_singleton, List.not_mem_nil, or_false] at hw
  simp only [ytHosts, List.map_cons, List.map_nil, List.mem_cons, List.not_mem_nil,
    or_false] at hho
  have hhead := litThen_head _ _ _ hlit
  rcases hw with rfl | rfl <;>
    rcases hho with rfl | rfl | rfl | rfl | rfl | rfl | rfl | rfl | rfl | rfl | rfl <;>
      first
        | (exact Or.inl (by rw [hhead (by decide)]; decide))
        | (exact Or.inr (Or.inl (by rw [hhead (by decide)]; decide)))
        | (exact Or.inr (Or.inr (Or.inl (by rw [hhead (by decide)]; decide))))
        | (exact Or.inr (Or.inr (Or.inr (Or.inl (by rw [hhead (by decide)]; decide)))))
        | (exact Or.inr (Or.inr (Or.inr (Or.inr (by rw [hhead (by decide)]; decide)))))

/-- Any post-scheme Drive match begins with `d`. -/
theorem driveCore_head (t : List Char) (h : driveCore t = true) :
    t.head? = some 'd' := by
  rw [litThen_head _ _ _ h (by decide)]; decide

theorem yt_drive_core_contra (t : List Char) (h1 : ytCore t = true)
    (h2 : driveCore t = true) : False := by
  have hd := driveCore_head t h2
  rcases ytCore_head t h1 with h | h | h | h | h <;> rw [hd] at h <;>
    exact absurd h (by decide)

theorem http_get4 (t : List Char) : ("http://".toList ++ t)[4]? = some ':' := rfl

theorem https_get4 (t : List Char) : ("https://".toList ++ t)[4]? = some 's' := rfl

/-- No string matches both the YouTube pattern and the Drive pattern: the
refinement's two regexes are mutually exclusive. -/
theorem yt_drive_disjoint (s : List Char) (h1 : withScheme ytCore s = true) :
    withScheme driveCore s = false := by
  by_contra hcon
  rw [Bool.not_eq_false] at hcon
  simp only [withScheme, Bool.or_eq_true] at h1 hcon
  rcases h1 with (hy | hy) | hy <;> rcases hcon with (hd | hd) | hd
  · exact yt_drive_core_contra s hy hd
  · have hh : s.head? = some 'h' := by
      rw [litThen_head _ _ _ hd (by decide)]; decide
    rcases ytCore_head s hy with h | h | h | h | h <;> rw [hh] at h <;>
      exact absurd h (by decide)
  · have hh : s.head? = some 'h' := by
      rw [litThen_head _ _ _ hd (by decide)]; decide
    rcases ytCore_head s hy with h | h | h | h | h <;> rw [hh] at h <;>
      exact absurd h (by decide)
  · have hh : s.head? = some 'h' := by
      rw [litThen_head _ _ _ hy (by decide)]; decide
    have hd2 := driveCore_head s hd
    rw [hh] at hd2
    exact absurd hd2 (by decide)
  · obtain ⟨t1, he1, hc1⟩ := litThen_parts _ _ _ hy
    obtain ⟨t2, he2, hc2⟩ := litThen_parts _ _ _ hd
    subst he1
    have ht : t1 = t2 := List.append_cancel_left he2
    subst ht
    exact yt_drive_core_contra t1 hc1 hc2
  · obtain ⟨t1, he1, hc1⟩ := litThen_parts _ _ _ hy
    obtain ⟨t2, he2, hc2⟩ := litThen_parts _ _ _ hd
    subst he1
    have h4 := congrArg (fun l => l[4]?) he2
    simp only [http_get4, https_get4] at h4
    exact absurd h4 (by decide)
  · have hh : s.head? = some 'h' := by
      rw [litThen_head _ _ _ hy (by decide)]; decide
    have hd2 := driveCore_head s hd
    rw [hh] at hd2
    exact absurd hd2 (by decide)
  · obtain ⟨t1, he1, hc1⟩ := litThen_parts _ _ _ hy
    obtain ⟨t2, he2, hc2⟩ := litThen_parts _ _ _ hd
    subst he1
    have h4 := congrArg (fun l => l[4]?) he2
    simp only [http_get4, https_get4] at h4
    exact absurd h4 (by decide)
  · obtain ⟨t1, he1, hc1⟩ := litThen_parts _ _ _ hy
    obtain ⟨t2, he2, hc2⟩ := litThen_parts _ _ _ hd
    subst he1
    have ht : t1 = t2 := List.append_cancel_left he2
    subst ht
    exact yt_drive_core_contra t1 hc1 hc2

/-! ## Share-resource form schema (`upload-notes` `formSchema`) -/

/-- A field-scoped validation error: the field path and its message,
as produced by the Zod schema. -/
structure FieldError where
  path : String
  message : String
deriving DecidableEq, Repr

/-- `true` exactly on a successful parse. -/
def parseOk {ε α : Type} : Except ε α → Bool
  | .ok _ => true
  | .error _ => false

/-- Raw input of the share-resource form (all fields as submitted). -/
structure ResourceFormInput where
  topic : String
  subject : String
  description : Option String
  resourceType : String
  url : String
deriving DecidableEq, Repr

/-- The base (per-field) checks of the share-resource schema:
`topic` min 5, `subject` min 1, `resourceType` in the enum, `url` a valid
URL. The URL well-formedness check `z.string().url()` is a collaborator
check (the platform's URL parser), so it is taken as the parameter
`urlOk`. -/
def resourceBaseErrors (urlOk : String → Bool) (i : ResourceFormInput) :
    List FieldError :=
  (if i.topic.length < 5
    then [⟨"topic", "Topic must be at least 5 characters."⟩] else []) ++
  (if i.subject.length < 1
    then [⟨"subject", "Please select a subject."⟩] else []) ++
  (if i.resourceType = "youtube" ∨ i.resourceType = "drive"
    then [] else [⟨"resourceType", "You need to select a resource type."⟩]) ++
  (if urlOk i.url then [] else [⟨"url", "Please enter a valid URL."⟩])

/-- The schema's `.refine` step: the URL must match the pattern selected by
the sibling `resourceType` field. -/
def resourceRefine (i : ResourceFormInput) : Bool :=
  if i.resourceType = "youtube" then ytMatch i.url
  else if i.resourceType = "drive" then driveMatch i.url
  else true

/-- Full schema parse: Zod runs the object-level refinement only when every
base field check passed; the refinement error is attached to the `url`
path. -/
def resourceParse (urlOk : String → Bool) (i : ResourceFormInput) :
    Except (List FieldError) ResourceFormInput :=
  match resourceBaseErrors urlOk i with
  | [] =>
    if resourceRefine i then .ok i
    else .error [⟨"url", "Please enter a valid URL for the selected resource type."⟩]
  | e :: es => .error (e :: es)

/-- C2: the URL rule is a dependent-field check on `(resourceType, url)`:
a YouTube-pattern URL submitted with `resourceType = drive` is rejected, a
Drive-pattern URL submitted with `resourceType = youtube` is rejected, and
when the URL's pattern matches the co-selected type (and every base field
check passes) the form is accepted. -/
theorem c2_dependent_url_rule (urlOk : String → Bool) (i : ResourceFormInput) :
    (i.resourceType = "drive" → ytMatch i.url = true →
      parseOk (resourceParse urlOk i) = false) ∧
    (i.resourceType = "youtube" → driveMatch i.url = true →
      parseOk (resourceParse urlOk i) = false) ∧
    (resourceBaseErrors urlOk i = [] → i.resourceType = "youtube" →
      ytMatch i.url = true → resourceParse urlOk i = .ok i) ∧
    (resourceBaseErrors urlOk i = [] → i.resourceType = "drive" →
      driveMatch i.url = true → resourceParse urlOk i = .ok i) := by
  refine ⟨?_, ?_, ?_, ?_⟩
  · intro hty hyt
    have hdm : driveMatch i.url = false := yt_drive_disjoint i.url.toList hyt
    unfold resourceParse
    cases h : resourceBaseErrors urlOk i with
    | nil => simp [resourceRefine, hty, hdm, parseOk]
    | cons e es => simp [parseOk]
  · intro hty hdm
    have hyt : ytMatch i.url = false := by
      by_contra hc
      rw [Bool.not_eq_false] at hc
      unfold driveMatch at hdm
      rw [yt_drive_disjoint i.url.toList hc] at hdm
      exact absurd hdm (by decide)
    unfold resourceParse
    cases h : resourceBaseErrors urlOk i with
    | nil => simp [resourceRefine, hty, hyt, parseOk]
    | cons e es => simp [parseOk]
  · intro hbase hty hyt
    unfold resourceParse
    rw [hbase]
    simp [resourceRefine, hty, hyt]
  · intro hbase hty hdm
    unfold resourceParse
    rw [hbase]
    simp [resourceRefine, hty, hdm]

/-- Concrete instance of C2: a YouTube URL under `resourceType = drive` is
rejected; the same URL under `resourceType = youtube` is accepted. -/
theorem c2_witness :
    parseOk (resourceParse (fun _ => true)
      ⟨"Quick Sort Algorithm Explained", "DSA", none, "drive",
        "https://www.youtube.com/watch?v=1"⟩) = false ∧
    resourceParse (fun _ => true)
      ⟨"Quick Sort Algorithm Explained", "DSA", none, "youtube",
        "https://www.youtube.com/watch?v=1"⟩ =
      .ok ⟨"Quick Sort Algorithm Explained", "DSA", none, "youtube",
        "https://www.youtube.com/watch?v=1"⟩ := by
  constructor
  · exact (c2_dependent_url_rule (fun _ => true)
      ⟨"Quick Sort Algorithm Explained", "DSA", none, "drive",
        "https://www.youtube.com/watch?v=1"⟩).1 rfl (by decide)
  · exact (c2_dependent_url_rule (fun _ => true)
      ⟨"Quick Sort Algorithm Explained", "DSA", none, "youtube",
        "https://www.youtube.com/watch?v=1"⟩).2.2.1 (by decide) rfl (by decide)

/-! ## Document-store calls

Every create/update issued by the client is recorded as a `StoreCall`.
The `createdAt: serverTimestamp()` field of the payloads is a server-side
sentinel, not client data, so it does not appear in the embedded payloads. -/

/-- Payload of `addDoc(collection(db, "doubts"), ...)` in the ask-doubt page. -/
structure NewDoubt where
  userId : String
  userName : String
  subject : String
  description : String
  isResolved : Bool
deriving DecidableEq, Repr

/-- Payload of `addDoc(collection(db, "notes"), ...)` in the share-resource page. -/
structure NewNote where
  userId : String
  userName : String
  topic : String
  subject : String
  description : Option String
  resourceUrl : String
  resourceType : String
deriving DecidableEq, Repr

/-- Payload of `addDoc(collection(db, "answers"), ...)` in the doubt dialog. -/
structure NewAnswer where
  doubtId : String
  userId : String
  userName : String
  text : String
deriving DecidableEq, Repr

/-- Payload of `setDoc(doc(db, "users", uid), ...)` at sign-up: exactly the
four fields written there. -/
structure UserDoc where
  uid : String
  name : String
  email : String
  upvoteScore : Nat
deriving DecidableEq, Repr

/-- A partial update of a doubt document: each field optionally present.
`handleMarkAsResolved` passes `{isResolved: true}`, i.e. every other field
absent. -/
structure DoubtPatch where
  userId : Option String
  userName : Option String
  subject : Option String
  description : Option String
  isResolved : Option Bool
deriving DecidableEq, Repr

/-- One call into the document store. -/
inductive StoreCall
  | addDoubt (d : NewDoubt)
  | addNote (n : NewNote)
  | addAnswer (a : NewAnswer)
  | setUser (uid : String) (u : UserDoc)
  | updateDoubt (id : String) (patch : DoubtPatch)
deriving DecidableEq, Repr

/-! ## Ask-doubt form schema (`ask-doubt` `formSchema`) -/

/-- Raw input of the ask-doubt form. -/
structure DoubtFormInput where
  subject : String
  description : String
deriving DecidableEq, Repr

/-- The ask-doubt schema: `subject` min 1, `description` min 10. -/
def doubtFieldErrors (i : DoubtFormInput) : List FieldError :=
  (if i.subject.length < 1
    then [⟨"subject", "Please select a subject."⟩] else []) ++
  (if i.description.length < 10
    then [⟨"description", "Description must be at least 10 characters."⟩] else [])

/-- Ask-doubt schema parse. -/
def doubtParse (i : DoubtFormInput) : Except (List FieldError) DoubtFormInput :=
  match doubtFieldErrors i with
  | [] => .ok i
  | e :: es => .error (e :: es)

/-! ## Form-gated mutation flows

`form.handleSubmit(onSubmit)` runs the Zod resolver first and calls
`onSubmit` only when the schema accepted the input; on schema failure it
returns the field errors and performs nothing. Each flow's result records
the store calls issued, the errors surfaced, whether the fields were
cleared (`form.reset()` / `setAnswer("")`), the toasts shown, and any
navigation. -/

/-- Result of submitting one of the two schema-backed forms. -/
structure FormOutcome where
  calls : List StoreCall
  fieldErrors : List FieldError
  topError : Option String
  cleared : Bool
  toasts : List Toast
  redirect : Option String
deriving DecidableEq, Repr

/-- `AskDoubtPage.onSubmit`, reached only with schema-accepted values:
guard on user/db configuration, then one `addDoc` into `doubts`; on write
success reset the form and redirect, on write failure set the top-level
error and leave the form as it was. -/
def askDoubtOnSubmit (user : Option AuthUser) (dbOk : Bool)
    (v : DoubtFormInput) (write : Except String Unit) : FormOutcome :=
  match user, dbOk with
  | some u, true =>
    let call := StoreCall.addDoubt ⟨u.uid, u.displayName, v.subject, v.description, false⟩
    match write with
    | .ok _ =>
      { calls := [call], fieldErrors := [], topError := none, cleared := true,
        toasts := [⟨false, "Success!", some "Your doubt has been posted successfully."⟩],
        redirect := some "/doubts" }
    | .error _ =>
      { calls := [call], fieldErrors := [],
        topError := some "Post Failed: An unexpected error occurred. Please check the console for details.",
        cleared := false, toasts := [], redirect := none }
  | _, _ =>
    { calls := [], fieldErrors := [], topError := none, cleared := false,
      toasts := [⟨true, "Configuration Error",
        some "Firebase is not configured correctly. Please check your setup."⟩],
      redirect := none }

/-- The ask-doubt form's full submit pipeline (resolver gate + `onSubmit`). -/
def askDoubtSubmitFlow (user : Option AuthUser) (dbOk : Bool)
    (write : Except String Unit) (i : DoubtFormInput) : FormOutcome :=
  match doubtParse i with
  | .error es =>
    { calls := [], fieldErrors := es, topError := none, cleared := false,
      toasts := [], redirect := none }
  | .ok v => askDoubtOnSubmit user dbOk v write

/-- `ShareResourcePage.onSubmit`, reached only with schema-accepted values. -/
def shareResourceOnSubmit (user : Option AuthUser) (dbOk : Bool)
    (v : ResourceFormInput) (write : Except String Unit) : FormOutcome :=
  match user, dbOk with
  | some u, true =>
    let call := StoreCall.addNote
      ⟨u.uid, u.displayName, v.topic, v.subject, v.description, v.url, v.resourceType⟩
    match write with
    | .ok _ =>
      { calls := [call], fieldErrors := [], topError := none, cleared := true,
        toasts := [⟨false, "Success!", some "Your resource has been shared successfully."⟩],
        redirect := some "/notes" }
    | .error _ =>
      { calls := [call], fieldErrors := [],
        topError := some "An unexpected error occurred while saving your resource. Please try again.",
        cleared := false, toasts := [], redirect := none }
  | _, _ =>
    { calls := [], fieldErrors := [], topError := none, cleared := false,
      toasts := [⟨true, "Configuration Error",
        some "Firebase is not configured correctly. Please check your setup."⟩],
      redirect := none }

/-- The share-resource form's full submit pipeline. -/
def shareResourceSubmitFlow (urlOk : String → Bool) (user : Option AuthUser)
    (dbOk : Bool) (write : Except String Unit) (i : ResourceFormInput) : FormOutcome :=
  match resourceParse urlOk i with
  | .error es =>
    { calls := [], fieldErrors := es, topError := none, cleared := false,
      toasts := [], redirect := none }
  | .ok v => shareResourceOnSubmit user dbOk v write

/-- C3: for every raw input that fails its declared schema, submitting the
ask-doubt or share-resource form issues zero store calls and returns the
(nonempty) field-level errors; conversely a store call is issued only when
the schema accepted the input. -/
theorem c3_validation_gating (urlOk : String → Bool) (user : Option AuthUser)
    (dbOk : Bool) (w : Except String Unit) (di : DoubtFormInput)
    (ri : ResourceFormInput) :
    (∀ es, doubtParse di = .error es →
      (askDoubtSubmitFlow user dbOk w di).calls = [] ∧
      (askDoubtSubmitFlow user dbOk w di).fieldErrors = es ∧ es ≠ []) ∧
    (∀ es, resourceParse urlOk ri = .error es →
      (shareResourceSubmitFlow urlOk user dbOk w ri).calls = [] ∧
      (shareResourceSubmitFlow urlOk user dbOk w ri).fieldErrors = es ∧ es ≠ []) ∧
    ((askDoubtSubmitFlow user dbOk w di).calls ≠ [] → doubtParse di = .ok di) ∧
    ((shareResourceSubmitFlow urlOk user dbOk w ri).calls ≠ [] →
      resourceParse urlOk ri = .ok ri) := by
  refine ⟨?_, ?_, ?_, ?_⟩
  · intro es hes
    have hne : es ≠ [] := by
      intro hnil
      subst hnil
      unfold doubtParse at hes
      cases h : doubtFieldErrors di <;> rw [h] at hes <;> simp at hes
    simp [askDoubtSubmitFlow, hes, hne]
  · intro es hes
    have hne : es ≠ [] := by
      intro hnil
      subst hnil
      unfold resourceParse at hes
      cases h : resourceBaseErrors urlOk ri <;> rw [h] at hes
      · by_cases hr : resourceRefine ri = true
        · rw [if_pos hr] at hes; exact absurd hes (by simp)
        · rw [if_neg hr] at hes; exact absurd hes (by simp)
      · exact absurd hes (by simp)
    simp [shareResourceSubmitFlow, hes, hne]
  · intro hcalls
    cases h : doubtParse di with
    | error es => simp [askDoubtSubmitFlow, h] at hcalls
    | ok v =>
      have hv : v = di := by
        unfold doubtParse at h
        cases h2 : doubtFieldErrors di <;> rw [h2] at h
        · exact (Except.ok.inj h).symm
        · exact absurd h (by simp)
      rw [hv]
  · intro hcalls
    cases h : resourceParse urlOk ri with
    | error es => simp [shareResourceSubmitFlow, h] at hcalls
    | ok v =>
      have hv : v = ri := by
        unfold resourceParse at h
        cases h2 : resourceBaseErrors urlOk ri <;> rw [h2] at h
        · by_cases hr : resourceRefine ri = true
          · rw [if_pos hr] at h; exact (Except.ok.inj h).symm
          · rw [if_neg hr] at h; exact absurd h (by simp)
        · exact absurd h (by simp)
      rw [hv]

/-- Concrete instance of C3: an ask-doubt input failing both field checks
produces zero store calls and two field errors. -/
theorem c3_witness :
    (askDoubtSubmitFlow (some ⟨"u1", "Alice"⟩) true (.ok ()) ⟨"", "short"⟩).calls = [] ∧
    (askDoubtSubmitFlow (some ⟨"u1", "Alice"⟩) true (.ok ()) ⟨"", "short"⟩).fieldErrors =
      [⟨"subject", "Please select a subject."⟩,
       ⟨"description", "Description must be at least 10 characters."⟩] := by
  have h := (c3_validation_gating (fun _ => true) (some ⟨"u1", "Alice"⟩) true (.ok ())
    ⟨"", "short"⟩ ⟨"", "", none, "", ""⟩).1
    [⟨"subject", "Please select a subject."⟩,
     ⟨"description", "Description must be at least 10 characters."⟩]
    (by rfl)
  exact ⟨h.1, h.2.1⟩

/-! ## Answer submission (`DoubtDetailsDialog.handleSubmit`) -/

/-- Code points removed by JS `String.prototype.trim` (ECMAScript
WhiteSpace and LineTerminator). -/
def jsWhitespaceCodes : List Nat :=
  [0x9, 0xA, 0xB, 0xC, 0xD, 0x20, 0xA0, 0x1680,
   0x2000, 0x2001, 0x2002, 0x2003, 0x2004, 0x2005, 0x2006, 0x2007,
   0x2008, 0x2009, 0x200A, 0x2028, 0x2029, 0x202F, 0x205F, 0x3000, 0xFEFF]

/-- Whether a character is JS trim whitespace. -/
def jsTrimWhite (c : Char) : Bool := jsWhitespaceCodes.contains c.toNat

/-- The guard `!answer.trim()`: `answer.trim()` is the empty string (hence
falsy) exactly when every character of `answer` is trim whitespace. -/
def trimEmpty (s : String) : Bool := s.toList.all jsTrimWhite

/-- Result of submitting the answer form inside the doubt dialog. -/
structure AnswerSubmitOutcome where
  calls : List StoreCall
  answerText : String
  toasts : List Toast
  redirect : Option String
deriving DecidableEq, Repr

/-- `DoubtDetailsDialog.handleSubmit`: guard on login, database
configuration and non-blank text, then one `addDoc` into `answers`; on
success clear the textarea, on failure toast an error and leave the typed
text in place. -/
def answerHandleSubmit (user : Option AuthUser) (dbOk : Bool)
    (doubtId : String) (answer : String) (write : Except String Unit) :
    AnswerSubmitOutcome :=
  match user with
  | none => ⟨[], answer, [⟨true, "Login Required", none⟩], some "/login"⟩
  | some u =>
    if !dbOk then
      ⟨[], answer, [⟨true, "Error", some "Database not configured."⟩], none⟩
    else if trimEmpty answer then
      ⟨[], answer, [⟨true, "Empty Answer", some "Please provide text for your answer."⟩], none⟩
    else
      let call := StoreCall.addAnswer ⟨doubtId, u.uid, u.displayName, answer⟩
      match write with
      | .ok _ => ⟨[call], "", [⟨false, "Answer submitted!", none⟩], none⟩
      | .error _ =>
        ⟨[call], answer, [⟨true, "Error", some "Could not submit your answer."⟩], none⟩

/-- C10: a blank (empty or all-whitespace) answer issues no create call,
surfaces a destructive toast and leaves the typed text in place; a
non-blank answer from a signed-in user with the store configured issues
exactly one create into `answers`, carrying the viewed doubt's id and the
submitter's uid. -/
theorem c10_answer_submit_gating (user : AuthUser) (doubtId answer : String)
    (w : Except String Unit) :
    (trimEmpty answer = true →
      (answerHandleSubmit (some user) true doubtId answer w).calls = [] ∧
      (answerHandleSubmit (some user) true doubtId answer w).answerText = answer ∧
      (answerHandleSubmit (some user) true doubtId answer w).toasts =
        [⟨true, "Empty Answer", some "Please provide text for your answer."⟩]) ∧
    (trimEmpty answer = false →
      (answerHandleSubmit (some user) true doubtId answer w).calls =
        [.addAnswer ⟨doubtId, user.uid, user.displayName, answer⟩]) := by
  constructor
  · intro hblank
    simp [answerHandleSubmit, hblank]
  · intro hblank
    cases w <;> simp [answerHandleSubmit, hblank]

/-- Concrete instance of C10: a whitespace-only answer is rejected without
a store call; a real answer produces the one expected create call. -/
theorem c10_witness :
    ((answerHandleSubmit (some ⟨"u2", "Bob"⟩) true "d1" "  \n " (.ok ())).calls = [] ∧
      (answerHandleSubmit (some ⟨"u2", "Bob"⟩) true "d1" "  \n " (.ok ())).answerText = "  \n ") ∧
    (answerHandleSubmit (some ⟨"u2", "Bob"⟩) true "d1"
        "A self-balancing BST." (.ok ())).calls =
      [.addAnswer ⟨"d1", "u2", "Bob", "A self-balancing BST."⟩] := by
  constructor
  · have h := (c10_answer_submit_gating ⟨"u2", "Bob"⟩ "d1" "  \n " (.ok ())).1 (by decide)
    exact ⟨h.1, h.2.1⟩
  · exact (c10_answer_submit_gating ⟨"u2", "Bob"⟩ "d1"
      "A self-balancing BST." (.ok ())).2 (by decide)

/-- C7: for the three form-gated mutations (post doubt, share resource,
submit answer), a remote write failure surfaces a single top-level error —
separate from the (empty) field-level errors — and leaves the form's
values in place; the fields are cleared only on write success. -/
theorem c7_write_failure_preserves_form (u : AuthUser) (v : DoubtFormInput)
    (rv : ResourceFormInput) (doubtId answer e : String) :
    ((askDoubtOnSubmit (some u) true v (.error e)).topError =
        some "Post Failed: An unexpected error occurred. Please check the console for details." ∧
      (askDoubtOnSubmit (some u) true v (.error e)).fieldErrors = [] ∧
      (askDoubtOnSubmit (some u) true v (.error e)).cleared = false) ∧
    ((askDoubtOnSubmit (some u) true v (.ok ())).cleared = true ∧
      (askDoubtOnSubmit (some u) true v (.ok ())).topError = none) ∧
    ((shareResourceOnSubmit (some u) true rv (.error e)).topError =
        some "An unexpected error occurred while saving your resource. Please try again." ∧
      (shareResourceOnSubmit (some u) true rv (.error e)).fieldErrors = [] ∧
      (shareResourceOnSubmit (some u) true rv (.error e)).cleared = false) ∧
    ((shareResourceOnSubmit (some u) true rv (.ok ())).cleared = true ∧
      (shareResourceOnSubmit (some u) true rv (.ok ())).topError = none) ∧
    (trimEmpty answer = false →
      (answerHandleSubmit (some u) true doubtId answer (.error e)).answerText = answer ∧
      (answerHandleSubmit (some u) true doubtId answer (.error e)).toasts =
        [⟨true, "Error", some "Could not submit your answer."⟩] ∧
      (answerHandleSubmit (some u) true doubtId answer (.ok ())).answerText = "") := by
  refine ⟨?_, ?_, ?_, ?_, ?_⟩
  · simp [askDoubtOnSubmit]
  · simp [askDoubtOnSubmit]
  · simp [shareResourceOnSubmit]
  · simp [shareResourceOnSubmit]
  · intro hblank
    simp [answerHandleSubmit, hblank]

/-- Concrete instance of C7: a failed doubt post keeps the form and sets
the top-level error; a failed answer submit keeps the typed text. -/
theorem c7_witness :
    (askDoubtOnSubmit (some ⟨"u1", "Alice"⟩) true
        ⟨"DSA", "What is a red-black tree?"⟩ (.error "boom")).cleared = false ∧
    (answerHandleSubmit (some ⟨"u1", "Alice"⟩) true "d1"
        "An answer." (.error "boom")).answerText = "An answer." := by
  have h := c7_write_failure_preserves_form ⟨"u1", "Alice"⟩
    ⟨"DSA", "What is a red-black tree?"⟩ ⟨"", "", none, "", ""⟩ "d1" "An answer." "boom"
  exact ⟨h.1.2.2, (h.2.2.2.2 (by decide)).1⟩

/-! ## Doubts collection semantics (C4, C9)

The only writes touching the `doubts` collection anywhere in the codebase
are `AskDoubtPage.onSubmit` (`addDoc` with `isResolved: false`) and
`DoubtsFeed.handleMarkAsResolved` (`updateDoc` with `{isResolved: true}`).
We give the collection's client-observable semantics as an operation list
over an id-keyed store; `addDoc` generates a fresh document id, which the
freshness side condition records. -/

/-- A doubt document as stored in the `doubts` collection. -/
structure DoubtDoc where
  userId : String
  userName : String
  subject : String
  description : String
  createdAt : Nat
  isResolved : Bool
deriving DecidableEq, Repr

/-- The `doubts` collection: document id to document. -/
abbrev DoubtStore := List (String × DoubtDoc)

/-- The two mutations of the `doubts` collection present in the codebase. -/
inductive DoubtOp
  | create (id userId userName subject description : String) (createdAt : Nat)
  | resolve (id : String)
deriving DecidableEq, Repr

/-- First document stored under `id`. -/
def lookupDoubt : DoubtStore → String → Option DoubtDoc
  | [], _ => none
  | (k, d) :: rest, id => if k = id then some d else lookupDoubt rest id

/-- Effect of `updateDoc(..., {isResolved: true})` on one store entry:
the targeted document gets the single-field merge, every other document is
untouched. -/
def resolveEntry (id : String) (kd : String × DoubtDoc) : String × DoubtDoc :=
  if kd.1 = id then (kd.1, { kd.2 with isResolved := true }) else kd

/-- Apply one mutation: `create` is the ask-doubt `addDoc` (isResolved
starts `false`); `resolve` is `updateDoc(..., {isResolved: true})`, which
merges the single-field patch into the targeted document. -/
def applyDoubtOp (st : DoubtStore) : DoubtOp → DoubtStore
  | .create id u un sub desc ts => (id, ⟨u, un, sub, desc, ts, false⟩) :: st
  | .resolve id => st.map (resolveEntry id)

theorem resolveEntry_hit (id k0 : String) (d0 : DoubtDoc) (h : k0 = id) :
    resolveEntry id (k0, d0) = (k0, { d0 with isResolved := true }) := by
  simp [resolveEntry, h]

theorem resolveEntry_miss (id k0 : String) (d0 : DoubtDoc) (h : ¬k0 = id) :
    resolveEntry id (k0, d0) = (k0, d0) := by
  simp [resolveEntry, h]

/-- Run a list of mutations. -/
def runDoubtOps (st : DoubtStore) (ops : List DoubtOp) : DoubtStore :=
  ops.foldl applyDoubtOp st

/-- `addDoc` generates fresh ids: each `create` in the list targets an id
not present at the moment it runs. -/
def opsFresh : DoubtStore → List DoubtOp → Bool
  | _, [] => true
  | st, op :: rest =>
    (match op with
      | .create id _ _ _ _ _ => (lookupDoubt st id).isNone
      | .resolve _ => true) && opsFresh (applyDoubtOp st op) rest

theorem lookupDoubt_resolve (st : DoubtStore) (id k : String) :
    lookupDoubt (applyDoubtOp st (.resolve id)) k =
      (lookupDoubt st k).map
        (fun d => if k = id then { d with isResolved := true } else d) := by
  induction st with
  | nil => rfl
  | cons kd rest ih =>
    obtain ⟨k0, d0⟩ := kd
    simp only [applyDoubtOp, List.map_cons] at ih ⊢
    by_cases h0 : k0 = id <;> by_cases hk : k0 = k
    · subst h0; subst hk
      rw [resolveEntry_hit _ _ _ rfl]
      simp [lookupDoubt]
    · subst h0
      rw [resolveEntry_hit _ _ _ rfl]
      simpa [lookupDoubt, hk] using ih
    · subst hk
      rw [resolveEntry_miss _ _ _ h0]
      simp [lookupDoubt, h0]
    · rw [resolveEntry_miss _ _ _ h0]
      simpa [lookupDoubt, hk] using ih

/-- The freshness side condition for a single operation: `create` only
targets an id not yet in the store. -/
def opFreshOk (st : DoubtStore) : DoubtOp → Prop
  | .create id _ _ _ _ _ => lookupDoubt st id = none
  | .resolve _ => True

theorem doubtOp_preserves_resolved (st : DoubtStore) (op : DoubtOp)
    (id : String) (d : DoubtDoc) (hfresh : opFreshOk st op)
    (hl : lookupDoubt st id = some d) (hr : d.isResolved = true) :
    ∃ d2, lookupDoubt (applyDoubtOp st op) id = some d2 ∧ d2.isResolved = true := by
  cases op with
  | create cid u un sub desc ts =>
    have hne : cid ≠ id := by
      intro hcid
      rw [opFreshOk] at hfresh
      rw [hcid] at hfresh
      rw [hfresh] at hl
      exact absurd hl (by simp)
    refine ⟨d, ?_, hr⟩
    simp only [applyDoubtOp, lookupDoubt]
    rw [if_neg hne]
    exact hl
  | resolve rid =>
    rw [lookupDoubt_resolve st rid id, hl]
    simp only [Option.map_some']
    by_cases h : id = rid
    · simp only [if_pos h]
      exact ⟨_, rfl, rfl⟩
    · simp only [if_neg h]
      exact ⟨d, rfl, hr⟩

/-- C4: doubts are created with `isResolved = false`; the only mutation of
an existing doubt is the resolve operation, which merges exactly
`{isResolved: true}` and touches nothing else; consequently, over any
sequence of the codebase's operations, a doubt that is resolved never
returns to unresolved. -/
theorem c4_isResolved_monotone :
    (∀ (ops : List DoubtOp) (st : DoubtStore) (id : String) (d d2 : DoubtDoc),
      opsFresh st ops = true → lookupDoubt st id = some d → d.isResolved = true →
      lookupDoubt (runDoubtOps st ops) id = some d2 → d2.isResolved = true) ∧
    (∀ (st : DoubtStore) (id u un sub desc : String) (ts : Nat),
      lookupDoubt (applyDoubtOp st (.create id u un sub desc ts)) id =
        some ⟨u, un, sub, desc, ts, false⟩) ∧
    (∀ (st : DoubtStore) (id k : String),
      lookupDoubt (applyDoubtOp st (.resolve id)) k =
        (lookupDoubt st k).map
          (fun d => if k = id then { d with isResolved := true } else d)) := by
  refine ⟨?_, ?_, ?_⟩
  · intro ops
    induction ops with
    | nil =>
      intro st id d d2 _ hl hr hl2
      rw [runDoubtOps, List.foldl_nil] at hl2
      rw [hl] at hl2
      exact (Option.some.inj hl2) ▸ hr
    | cons op rest ih =>
      intro st id d d2 hwf hl hr hl2
      simp only [opsFresh, Bool.and_eq_true] at hwf
      have hfresh : opFreshOk st op := by
        cases op with
        | create cid u un sub desc ts =>
          have := hwf.1
          simpa [opFreshOk, Option.isNone_iff_eq_none] using this
        | resolve _ => trivial
      obtain ⟨dmid, hlmid, hrmid⟩ :=
        doubtOp_preserves_resolved st op id d hfresh hl hr
      refine ih (applyDoubtOp st op) id dmid d2 hwf.2 hlmid hrmid ?_
      rw [runDoubtOps, List.foldl_cons] at hl2
      exact hl2
  · intro st id u un sub desc ts
    simp [applyDoubtOp, lookupDoubt]
  · exact lookupDoubt_resolve

/-- Concrete instance of C4: create a doubt (unresolved), resolve it, then
create another doubt; the first stays resolved. -/
theorem c4_witness :
    (∀ d2 : DoubtDoc,
      lookupDoubt
        (runDoubtOps [("d1", ⟨"u1", "Alice", "DSA", "q", 0, true⟩)]
          [.create "d2" "u2" "Bob" "OS" "another question" 1, .resolve "d1"])
        "d1" = some d2 → d2.isResolved = true) ∧
    lookupDoubt (applyDoubtOp [] (.create "d1" "u1" "Alice" "DSA" "q" 0)) "d1" =
      some ⟨"u1", "Alice", "DSA", "q", 0, false⟩ := by
  constructor
  · intro d2 h
    exact c4_isResolved_monotone.1
      [.create "d2" "u2" "Bob" "OS" "another question" 1, .resolve "d1"]
      [("d1", ⟨"u1", "Alice", "DSA", "q", 0, true⟩)]
      "d1" ⟨"u1", "Alice", "DSA", "q", 0, true⟩ d2 (by decide) (by decide) rfl h
  · exact c4_isResolved_monotone.2.1 [] "d1" "u1" "Alice" "DSA" "q" 0

/-! ## Resolve affordance (C9) -/

/-- A doubt as rendered in the feed. -/
structure Doubt where
  id : String
  userId : String
  userName : String
  subject : String
  description : String
  createdAt : Nat
  isResolved : Bool
deriving DecidableEq, Repr

/-- The Resolve button's visibility condition in the feed:
`user?.uid === doubt.userId && !doubt.isResolved`. -/
def resolveButtonVisible (user : Option AuthUser) (d : Doubt) : Bool :=
  match user with
  | some u => u.uid == d.userId && !d.isResolved
  | none => false

/-- C9: the Resolve affordance is present iff the signed-in user is the
doubt's author and the doubt is not yet resolved; a non-author (or
signed-out) viewer never sees it. -/
theorem c9_resolve_affordance (user : Option AuthUser) (d : Doubt) :
    resolveButtonVisible user d = true ↔
      (∃ u, user = some u ∧ u.uid = d.userId) ∧ d.isResolved = false := by
  cases user with
  | none => simp [resolveButtonVisible]
  | some u => simp [resolveButtonVisible]

/-- Concrete instance of C9: the author of an open doubt sees the button;
a different signed-in user does not. -/
theorem c9_witness :
    resolveButtonVisible (some ⟨"u1", "Alice"⟩)
      ⟨"d1", "u1", "Alice", "DSA", "q", 0, false⟩ = true ∧
    resolveButtonVisible (some ⟨"u2", "Bob"⟩)
      ⟨"d1", "u1", "Alice", "DSA", "q", 0, false⟩ = false := by
  constructor
  · exact (c9_resolve_affordance (some ⟨"u1", "Alice"⟩)
      ⟨"d1", "u1", "Alice", "DSA", "q", 0, false⟩).mpr
      ⟨⟨⟨"u1", "Alice"⟩, rfl, rfl⟩, rfl⟩
  · by_contra h
    rw [Bool.not_eq_false] at h
    obtain ⟨⟨u, hu, huid⟩, -⟩ := (c9_resolve_affordance (some ⟨"u2", "Bob"⟩)
      ⟨"d1", "u1", "Alice", "DSA", "q", 0, false⟩).mp h
    obtain rfl : (⟨"u2", "Bob"⟩ : AuthUser) = u := Option.some.inj hu
    exact absurd huid (by decide)

/-! ## Live query subscriptions and their error handling (C5, C6)

Three `onSnapshot` live query subscriptions exist in the codebase: the
answers list inside the doubt dialog, the doubts feed, and the notes page.
Each is embedded as a state machine driven by subscription events. -/

/-- One delivery on a live query subscription channel: a full result-set
snapshot, or the error callback firing. -/
inductive SubEvent (α : Type)
  | snapshot (docs : List α)
  | failure (e : FsError)
deriving DecidableEq, Repr

/-- An answer as rendered in the answers list. -/
structure AnswerRec where
  id : String
  userId : String
  userName : String
  text : String
  createdAt : Nat
deriving DecidableEq, Repr

/-- A resource as rendered on the notes page. -/
structure NoteRec where
  id : String
  topic : String
  subject : String
  description : Option String
  resourceUrl : String
  resourceType : String
  userName : String
  createdAt : Nat
deriving DecidableEq, Repr

/-- The actionable message `AnswerList` shows for a missing composite
index. -/
def answersIndexMsg : String :=
  "This feature requires a database index. Please open your browser's developer console (F12). You will find a link in the red Firebase error message. Click that link to create the index in the Firebase Console, then wait a few minutes and refresh this page."

/-- `AnswerList`'s `onSnapshot` error callback: the `failed-precondition`
classification gets the actionable index message, everything else a
generic message carrying the error text. -/
def answersOnError (e : FsError) : String :=
  if e.code = "failed-precondition" then answersIndexMsg
  else "An unexpected database error occurred: " ++ e.message

/-- `DoubtsFeed`'s `onSnapshot` error callback: a fixed destructive toast,
ignoring the error entirely. -/
def doubtsFeedErrorToast (_e : FsError) : Toast :=
  ⟨true, "Error", some "Could not fetch doubts."⟩

/-- `NotesPage`'s `onSnapshot` error callback message: fixed, ignoring the
error. -/
def notesOnError (_e : FsError) : String :=
  "Failed to fetch resources from the database."

/-- State of the `AnswerList` component. -/
structure AnswerListState where
  answers : List AnswerRec
  loading : Bool
  fetchError : Option String
deriving DecidableEq, Repr

/-- `AnswerList` on mount: with the database configured it subscribes in
the loading state; without it, it sets the configuration error. -/
def answerListMount (dbOk : Bool) : AnswerListState :=
  if dbOk then ⟨[], true, none⟩
  else ⟨[], false,
    some "The application is not connected to the database. Please check your Firebase configuration."⟩

/-- `AnswerList`'s subscription callbacks: a snapshot stores the records
and clears the error; the error callback stores the classified message. -/
def answerListStep (s : AnswerListState) : SubEvent AnswerRec → AnswerListState
  | .snapshot docs => ⟨docs, false, none⟩
  | .failure e => ⟨s.answers, false, some (answersOnError e)⟩

/-- Run one mounted `AnswerList` subscription over its event trace. -/
def runAnswerList (t : List (SubEvent AnswerRec)) : AnswerListState :=
  t.foldl answerListStep (answerListMount true)

/-- State of the `NotesPage` component. -/
structure NotesState where
  resources : List NoteRec
  loading : Bool
  error : Option String
deriving DecidableEq, Repr

/-- `NotesPage` on mount. -/
def notesMount (dbOk : Bool) : NotesState :=
  if dbOk then ⟨[], true, none⟩
  else ⟨[], false, some "Database not available. Please check Firebase configuration."⟩

/-- `NotesPage`'s subscription callbacks: note that the snapshot callback
does not clear a previously set error. -/
def notesStep (s : NotesState) : SubEvent NoteRec → NotesState
  | .snapshot docs => ⟨docs, false, s.error⟩
  | .failure e => ⟨s.resources, false, some (notesOnError e)⟩

/-- State of the `DoubtsFeed` component: it has no error field at all. -/
structure DoubtsFeedState where
  doubts : List Doubt
  loading : Bool
deriving DecidableEq, Repr

/-- `DoubtsFeed` on mount (database configured). -/
def doubtsFeedMount : DoubtsFeedState := ⟨[], true⟩

/-- `DoubtsFeed`'s subscription callbacks: the error callback only emits a
transient toast and stops the loading state; no error is retained. -/
def doubtsFeedStep (s : DoubtsFeedState) :
    SubEvent Doubt → DoubtsFeedState × List Toast
  | .snapshot docs => (⟨docs, false⟩, [])
  | .failure e => (⟨s.doubts, false⟩, [doubtsFeedErrorToast e])

/-- What the `DoubtsFeed` render shows for a given state. -/
inductive FeedView
  | skeleton
  | emptyCard
  | grid
deriving DecidableEq, Repr

/-- `DoubtsFeed`'s render: skeleton while loading, the empty-feed card for
no doubts, else the grid — there is no error view. -/
def doubtsFeedRender (s : DoubtsFeedState) : FeedView :=
  if s.loading then .skeleton
  else if s.doubts.isEmpty then .emptyCard
  else .grid

/-- `(a ++ b).data` is the concatenation of the character data. -/
theorem dataAppend (a b : String) : (a ++ b).data = a.data ++ b.data := by
  cases a; cases b; rfl

/-- The generic answers-list error message never equals the actionable
index message, whatever the error text. -/
theorem genericNotIndexMsg (m : String) :
    ("An unexpected database error occurred: " ++ m) ≠ answersIndexMsg := by
  intro h
  have h2 := congrArg (fun s => s.data.head?) h
  simp only at h2
  rw [dataAppend] at h2
  have e1 : ("An unexpected database error occurred: ".data ++ m.data).head? =
      some 'A' := rfl
  have e2 : answersIndexMsg.data.head? = some 'T' := rfl
  rw [e1, e2] at h2
  exact absurd h2 (by decide)

/-- C5 counterexample: the doubts-feed live query subscription surfaces a
`failed-precondition` failure with the same fixed generic toast as any
other failure — no index guidance and no distinguished message. -/
theorem c5_counterexample :
    doubtsFeedErrorToast
        ⟨"failed-precondition", "The query requires a composite index."⟩ =
      doubtsFeedErrorToast
        ⟨"permission-denied", "Missing or insufficient permissions."⟩ ∧
    doubtsFeedErrorToast
        ⟨"failed-precondition", "The query requires a composite index."⟩ =
      ⟨true, "Error", some "Could not fetch doubts."⟩ :=
  ⟨rfl, rfl⟩

/-- C5 (amended): only the answers-list subscription distinguishes the
`failed-precondition` classification, surfacing the actionable index
message for it and a distinct generic message otherwise; the doubts-feed
and notes-page subscriptions surface one fixed generic message for every
error. -/
theorem c5_amended_precondition_surfacing :
    (∀ e : FsError, e.code = "failed-precondition" →
      answersOnError e = answersIndexMsg) ∧
    (∀ e : FsError, e.code ≠ "failed-precondition" →
      answersOnError e = "An unexpected database error occurred: " ++ e.message ∧
      answersOnError e ≠ answersIndexMsg) ∧
    (∀ e : FsError,
      doubtsFeedErrorToast e = ⟨true, "Error", some "Could not fetch doubts."⟩) ∧
    (∀ e : FsError,
      notesOnError e = "Failed to fetch resources from the database.") := by
  refine ⟨?_, ?_, fun e => rfl, fun e => rfl⟩
  · intro e he
    simp [answersOnError, he]
  · intro e he
    constructor
    · simp [answersOnError, he]
    · rw [answersOnError, if_neg he]
      exact genericNotIndexMsg e.message

/-- Concrete instance of the amended C5: a missing-index failure on the
answers list gets the actionable message, an unrelated failure gets the
generic one. -/
theorem c5_witness :
    answersOnError ⟨"failed-precondition", "The query requires a composite index."⟩ =
      answersIndexMsg ∧
    answersOnError ⟨"unavailable", "backend unreachable"⟩ =
      "An unexpected database error occurred: backend unreachable" := by
  constructor
  · exact c5_amended_precondition_surfacing.1
      ⟨"failed-precondition", "The query requires a composite index."⟩ rfl
  · exact (c5_amended_precondition_surfacing.2.1
      ⟨"unavailable", "backend unreachable"⟩ (by decide)).1

/-- A subscription trace respecting the document store's delivery
contract: after the error callback fires the channel delivers nothing
more, so an error can only be the last event. -/
def errorTerminal {α : Type} : List (SubEvent α) → Prop
  | [] => True
  | .snapshot _ :: rest => errorTerminal rest
  | .failure _ :: rest => rest = []

theorem answerList_error_final (t : List (SubEvent AnswerRec)) :
    ∀ (s : AnswerListState) (e : FsError), errorTerminal t →
      SubEvent.failure e ∈ t →
      (t.foldl answerListStep s).fetchError = some (answersOnError e) := by
  induction t with
  | nil => intro s e _ hin; exact absurd hin (by simp)
  | cons ev rest ih =>
    intro s e hterm hin
    cases ev with
    | snapshot docs =>
      have hin2 : SubEvent.failure e ∈ rest := by
        rcases List.mem_cons.mp hin with h | h
        · exact absurd h (by simp)
        · exact h
      exact ih (answerListStep s (.snapshot docs)) e hterm hin2
    | failure e2 =>
      have hrest : rest = [] := hterm
      subst hrest
      have he : e = e2 := by
        rcases List.mem_cons.mp hin with h | h
        · exact SubEvent.failure.inj h
        · exact absurd h (by simp)
      subst he
      rfl

theorem notes_error_sticky (t : List (SubEvent NoteRec)) :
    ∀ s : NotesState, s.error = some "Failed to fetch resources from the database." →
      (t.foldl notesStep s).error = some "Failed to fetch resources from the database." := by
  induction t with
  | nil => intro s hs; exact hs
  | cons ev rest ih =>
    intro s hs
    cases ev with
    | snapshot docs => exact ih ⟨docs, false, s.error⟩ hs
    | failure e2 => exact ih _ rfl

theorem notes_error_persists (t : List (SubEvent NoteRec)) :
    ∀ (s : NotesState) (e : FsError), SubEvent.failure e ∈ t →
      (t.foldl notesStep s).error = some "Failed to fetch resources from the database." := by
  induction t with
  | nil => intro s e hin; exact absurd hin (by simp)
  | cons ev rest ih =>
    intro s e hin
    cases ev with
    | snapshot docs =>
      have hin2 : SubEvent.failure e ∈ rest := by
        rcases List.mem_cons.mp hin with h | h
        · exact absurd h (by simp)
        · exact h
      exact ih (notesStep s (.snapshot docs)) e hin2
    | failure e2 =>
      exact notes_error_sticky rest _ rfl

/-- C6 counterexample: for the doubts-feed live query subscription no
error state persists after the error callback fires — the retained
component state is identical to the state after an ordinary empty
snapshot, and the rendered view is the empty-feed card, not an error
display. -/
theorem c6_counterexample :
    (doubtsFeedStep doubtsFeedMount
        (.failure ⟨"failed-precondition", "The query requires a composite index."⟩)).1 =
      (doubtsFeedStep doubtsFeedMount (.snapshot [])).1 ∧
    doubtsFeedRender (doubtsFeedStep doubtsFeedMount
        (.failure ⟨"failed-precondition", "The query requires a composite index."⟩)).1 =
      .emptyCard :=
  ⟨rfl, rfl⟩

/-- C6 (amended): for the answers-list subscription the error state set by
the error callback persists to the end of the subscription's lifetime
(the store delivers no event after an error), and for the notes-page
subscription it persists under any continuation (even snapshots never
clear it); only a remount returns the error state to `none`. The
doubts-feed subscription retains no error state — its failure surfaces
only as a transient toast. -/
theorem c6_amended_sticky_error :
    (∀ (t : List (SubEvent AnswerRec)) (e : FsError), errorTerminal t →
      SubEvent.failure e ∈ t →
      (runAnswerList t).fetchError = some (answersOnError e)) ∧
    (∀ (t : List (SubEvent NoteRec)) (e : FsError), SubEvent.failure e ∈ t →
      (t.foldl notesStep (notesMount true)).error =
        some "Failed to fetch resources from the database.") ∧
    (runAnswerList []).fetchError = none ∧
    (notesMount true).error = none ∧
    (∀ (s : DoubtsFeedState) (e : FsError),
      (doubtsFeedStep s (.failure e)).1 = ⟨s.doubts, false⟩ ∧
      (doubtsFeedStep s (.failure e)).2 = [doubtsFeedErrorToast e]) := by
  refine ⟨?_, ?_, rfl, rfl, fun s e => ⟨rfl, rfl⟩⟩
  · intro t e hterm hin
    exact answerList_error_final t (answerListMount true) e hterm hin
  · intro t e hin
    exact notes_error_persists t (notesMount true) e hin

/-- Concrete instance of the amended C6: an answers-list trace delivering
one snapshot and then the error keeps the classified error message as its
final state. -/
theorem c6_witness :
    (runAnswerList [.snapshot [], .failure ⟨"unavailable", "backend unreachable"⟩]).fetchError =
      some (answersOnError ⟨"unavailable", "backend unreachable"⟩) := by
  exact c6_amended_sticky_error.1
    [.snapshot [], .failure ⟨"unavailable", "backend unreachable"⟩]
    ⟨"unavailable", "backend unreachable"⟩
    (by simp [errorTerminal]) (by simp)

/-! ## Sign-up flow (`SignupPage.onSubmit`, C8)

Step 1 (identity creation plus display-name profile update) is the auth
collaborator call; its combined outcome is `AuthResult`. Step 2 is the
`setDoc` of `users/{uid}`. -/

/-- Validated sign-up form values. -/
structure SignupValues where
  name : String
  email : String
  password : String
deriving DecidableEq, Repr

/-- Outcome of the identity-creation step: the new uid, or the auth error
code caught there. -/
inductive AuthResult
  | ok (uid : String)
  | err (code : String)
deriving DecidableEq, Repr

/-- The description chosen for an identity-creation failure. -/
def authErrDescription (code : String) : String :=
  if code = "auth/email-already-in-use" then
    "This email is already registered. Please try logging in instead."
  else if code = "auth/weak-password" then
    "The password is too weak. Please use at least 6 characters."
  else "An unknown error occurred during account creation."

/-- The distinct partial-failure message shown when the identity exists
but the profile document could not be written. -/
def signupPartialMsg : String :=
  "Signup Incomplete. Your account was created, but we could not save your profile. This is almost always a Firestore Security Rules issue. Please double-check your rules in the Firebase Console."

/-- Result of one sign-up submission. -/
structure SignupOutcome where
  identityCreated : Bool
  calls : List StoreCall
  errorMsg : Option String
  redirect : Option String
deriving DecidableEq, Repr

/-- `SignupPage.onSubmit`: configuration guard, then the two-phase flow —
identity creation, and on its success exactly one
`setDoc(users/{uid}, {uid, name, email, upvoteScore: 0})`; a failure of
that second write leaves the created identity in place and surfaces the
partial-failure message. -/
def signupOnSubmit (configured : Bool) (v : SignupValues)
    (authResult : AuthResult) (profileWrite : Except String Unit) : SignupOutcome :=
  if !configured then ⟨false, [], none, none⟩
  else
    match authResult with
    | .err code =>
      ⟨false, [], some ("Account Creation Failed: " ++ authErrDescription code), none⟩
    | .ok uid =>
      let call := StoreCall.setUser uid ⟨uid, v.name, v.email, 0⟩
      match profileWrite with
      | .ok _ => ⟨true, [call], none, some "/dashboard"⟩
      | .error _ => ⟨true, [call], some signupPartialMsg, none⟩

/-- The partial-failure message differs from every identity-creation
failure message. -/
theorem signupPartialMsg_distinct (code : String) :
    signupPartialMsg ≠ "Account Creation Failed: " ++ authErrDescription code := by
  intro h
  have h2 := congrArg (fun s => s.data.head?) h
  simp only at h2
  rw [dataAppend] at h2
  have e1 : signupPartialMsg.data.head? = some 'S' := rfl
  have e2 : ("Account Creation Failed: ".data ++ (authErrDescription code).data).head? =
      some 'A' := rfl
  rw [e1, e2] at h2
  exact absurd h2 (by decide)

/-- C8: after the identity call succeeds, exactly one `users/{uid}`
document write is issued, containing exactly `{uid, name, email,
upvoteScore: 0}`; if that write fails the created identity persists and
the distinct partial-failure message is surfaced, which differs from
every identity-creation failure message. -/
theorem c8_signup_two_phase (v : SignupValues) (uid : String)
    (pw : Except String Unit) :
    (signupOnSubmit true v (.ok uid) pw).calls =
      [.setUser uid ⟨uid, v.name, v.email, 0⟩] ∧
    ((signupOnSubmit true v (.ok uid) (.ok ())).identityCreated = true ∧
      (signupOnSubmit true v (.ok uid) (.ok ())).errorMsg = none ∧
      (signupOnSubmit true v (.ok uid) (.ok ())).redirect = some "/dashboard") ∧
    (∀ e : String,
      (signupOnSubmit true v (.ok uid) (.error e)).identityCreated = true ∧
      (signupOnSubmit true v (.ok uid) (.error e)).errorMsg = some signupPartialMsg) ∧
    (∀ code : String,
      (signupOnSubmit true v (.err code) pw).calls = [] ∧
      (signupOnSubmit true v (.err code) pw).errorMsg =
        some ("Account Creation Failed: " ++ authErrDescription code) ∧
      signupPartialMsg ≠ "Account Creation Failed: " ++ authErrDescription code) := by
  refine ⟨?_, ⟨rfl, rfl, rfl⟩, fun e => ⟨rfl, rfl⟩, fun code => ⟨rfl, rfl, ?_⟩⟩
  · cases pw <;> rfl
  · exact signupPartialMsg_distinct code

/-- Concrete instance of C8: a failed profile write after a successful
identity creation keeps the identity and surfaces the partial-failure
message; the profile write carries exactly the four expected fields. -/
theorem c8_witness :
    (signupOnSubmit true ⟨"Alice", "a@ex.com", "secret123"⟩ (.ok "u1")
        (.error "permission-denied")).identityCreated = true ∧
    (signupOnSubmit true ⟨"Alice", "a@ex.com", "secret123"⟩ (.ok "u1")
        (.error "permission-denied")).errorMsg = some signupPartialMsg ∧
    (signupOnSubmit true ⟨"Alice", "a@ex.com", "secret123"⟩ (.ok "u1")
        (.error "permission-denied")).calls =
      [.setUser "u1" ⟨"u1", "Alice", "a@ex.com", 0⟩] := by
  have h := c8_signup_two_phase ⟨"Alice", "a@ex.com", "secret123"⟩ "u1"
    (.error "permission-denied")
  exact ⟨(h.2.2.1 "permission-denied").1, (h.2.2.1 "permission-denied").2, h.1⟩

end StudySync
